import Mathlib

/-!
# Verification of the basilisk roguelike simulation core

Shallow embedding of the parts of the `basilisk` code base needed to settle
the frozen claims: the body-chain ("snake") propagation rule of
`entity.py`, the glyph-keyed identification table, the status-effect
engine, the action/turn pipeline of `input_handlers.py` and `engine.py`,
the time-reversal manager, damage resolution, the bounded placement loops
of `procgen.py`, and word-mode checking.

Python machine integers are modelled as `Int` (Python ints are unbounded),
lists as `List`, and exceptions as explicit result components.
-/

namespace Basilisk

/-! ## Positions and adjacency

Tiles are integer coordinate pairs.  `DIRECTIONS` in the source are the
eight king moves, so two tiles are adjacent when their Chebyshev distance
is exactly 1. -/

abbrev Pos := Int × Int

def chebyshev (p q : Pos) : Nat :=
  max (p.1 - q.1).natAbs (p.2 - q.2).natAbs

def adjacent (p q : Pos) : Prop := chebyshev p q = 1

instance (p q : Pos) : Decidable (adjacent p q) := by
  unfold adjacent; infer_instance

/-! ## Body-chain propagation (`src/entity.py`, `Entity.move` / `Entity.snake`)

A `Segment` is one inventory item of the player's body chain: an identity,
a position, and the `blocks_movement` ("solid") flag.  `snakeGo` is the
loop body of `Entity.snake` from `start_at` on: a non-solid segment either
ends the walk (another blocking entity occupies its tile) or solidifies in
place and ends the walk; a solid segment is displaced onto the footprint
(the tile just vacated by the piece ahead) and the footprint becomes its
own pre-move tile. -/

structure Segment where
  sid : Nat
  x : Int
  y : Int
  blocks_movement : Bool
  deriving Repr, DecidableEq

def Segment.xy (s : Segment) : Pos := (s.x, s.y)

/-- `Entity.move` for a non-player entity: position update only. -/
def Segment.moveBy (s : Segment) (d : Pos) : Segment :=
  { s with x := s.x + d.1, y := s.y + d.2 }

/-- `Item.solidify` (color/render changes omitted: presentation only). -/
def Segment.solidify (s : Segment) : Segment :=
  { s with blocks_movement := true }

/-- Loop of `Entity.snake` (entity.py lines 102-114).  `blocked` embeds
`gamemap.get_blocking_entity_at_location` restricted to the tiles asked
about. -/
def snakeGo (blocked : Pos → Bool) : Pos → List Segment → List Segment
  | _, [] => []
  | footprint, item :: rest =>
    if item.blocks_movement then
      let goto : Pos := (footprint.1 - item.x, footprint.2 - item.y)
      item.moveBy goto :: snakeGo blocked item.xy rest
    else
      if blocked item.xy then item :: rest
      else item.solidify :: rest

structure Player where
  x : Int
  y : Int
  items : List Segment
  deriving Repr, DecidableEq

def Player.xy (p : Player) : Pos := (p.x, p.y)

/-- `Entity.snake(footprint, start_at)`: items with index below `start_at`
are skipped by the `continue`; the walk acts on the rest. -/
def Player.snake (blocked : Pos → Bool) (p : Player) (footprint : Pos)
    (start_at : Nat) : Player :=
  { p with items :=
      p.items.take start_at ++ snakeGo blocked footprint (p.items.drop start_at) }

/-- `Entity.move` for the player (entity.py lines 92-100): save the
footprint, step, then snake the chain from index 0. -/
def Player.move (blocked : Pos → Bool) (p : Player) (d : Pos) : Player :=
  let footprint : Pos := (p.x, p.y)
  let p1 : Player := { p with x := p.x + d.1, y := p.y + d.2 }
  Player.snake blocked p1 footprint 0

/-- A chain of positions rooted at a head: consecutive entries adjacent. -/
def isChain : Pos → List Pos → Prop
  | _, [] => True
  | h, p :: rest => adjacent h p ∧ isChain p rest

instance instDecidableIsChain : (h : Pos) → (ps : List Pos) →
    Decidable (isChain h ps)
  | _, [] => isTrue trivial
  | h, p :: rest =>
    haveI := instDecidableIsChain p rest
    inferInstanceAs (Decidable (adjacent h p ∧ isChain p rest))

/-! ## Glyph-keyed identification (`src/entity.py`, `Item.identified`)

An `ItemFactory` is one entry of the floor's `gamemap.item_factories`
catalog; its `_identified` slot is the per-glyph shared identification
state.  An `Item` instance carries only its `item_type` and glyph. -/

structure ItemFactory where
  char : Char
  identifiedFlag : Bool
  deriving Repr, DecidableEq

structure Item where
  item_type : Char
  char : Char
  deriving Repr, DecidableEq

/-- `[i for i in self.gamemap.item_factories if i.char == self.char][0]`:
the first factory whose glyph matches. -/
def findFactory (fs : List ItemFactory) (c : Char) : Option ItemFactory :=
  fs.find? (fun f => f.char == c)

/-- Getter of `Item.identified` (entity.py 259-263): vowel-type items read
`True` unconditionally; everything else reads the `_identified` slot of the
first factory with the same glyph (`none` models the `IndexError` when no
factory matches). -/
def Item.identifiedGet (fs : List ItemFactory) (it : Item) : Option Bool :=
  if it.item_type == 'v' then some true
  else (findFactory fs it.char).map ItemFactory.identifiedFlag

def setFirstFactory (fs : List ItemFactory) (c : Char) (v : Bool) :
    List ItemFactory :=
  match fs with
  | [] => []
  | f :: rest =>
    if f.char == c then { f with identifiedFlag := v } :: rest
    else f :: setFirstFactory rest c v

/-- Setter of `Item.identified` (entity.py 265-269): a no-op for vowel-type
items; otherwise writes the first matching factory's `_identified` slot. -/
def Item.identifiedSet (fs : List ItemFactory) (it : Item) (v : Bool) :
    List ItemFactory :=
  if it.item_type == 'v' then fs else setFirstFactory fs it.char v

/-! ## Status-effect engine
(`src/basilisk/components/status_effect.py`, `consumable.py`)

A status instance records its effect class (`kind`, the `isinstance` key)
and its remaining duration.  Log side effects are omitted. -/

structure StatusInstance where
  kind : Nat
  duration : Int
  deriving Repr, DecidableEq

/-- `StatusEffect.__init__` (status_effect.py 17-20):
`self.duration = duration + self.duration_mod`; `apply` then appends the
instance to the actor's status list (done at the use site below). -/
def statusInit (k : Nat) (duration : Int) (durationMod : Int) : StatusInstance :=
  { kind := k, duration := duration + durationMod }

/-- Beneficial `StatusEffect.duration_mod` (status_effect.py 22-24):
`self.engine.player.MIND`. -/
def goodStatusInit (k : Nat) (duration mind : Int) : StatusInstance :=
  statusInit k duration mind

/-- `BadStatusEffect.duration_mod` (status_effect.py 41-44):
`0 - self.engine.player.MIND`. -/
def badStatusInit (k : Nat) (duration mind : Int) : StatusInstance :=
  statusInit k duration (0 - mind)

/-- `StatusEffect.strengthen` (status_effect.py 38-39):
`self.duration += strength`. -/
def StatusInstance.strengthen (s : StatusInstance) (strength : Int) :
    StatusInstance :=
  { s with duration := s.duration + strength }

/-- `st[0].strengthen()` where `st` filters the actor's statuses by kind:
strengthen the first instance of kind `k`, leave the rest alone. -/
def strengthenFirst (k : Nat) (strength : Int) :
    List StatusInstance → List StatusInstance
  | [] => []
  | s :: rest =>
    if s.kind == k then s.strengthen strength :: rest
    else s :: strengthenFirst k strength rest

/-- `Consumable.apply_status` (consumable.py 79-84): if an instance of the
same kind is already on the target, strengthen it; otherwise the `status`
constructor builds a fresh instance (base duration plus `duration_mod`)
and its `apply` appends it. -/
def apply_status (strength durationMod : Int)
    (statuses : List StatusInstance) (k : Nat) (duration : Int) :
    List StatusInstance :=
  if (statuses.filter (fun s => s.kind == k)).isEmpty
  then statuses ++ [statusInit k duration durationMod]
  else strengthenFirst k strength statuses

/-! ## Actors, damage, death, constriction (`src/entity.py`)

An actor's health is the digit of its display glyph: `int(self.char)` and
`int(self.base_char)`.  The AI variant is a closed sum; `Constricted`
wraps the previous AI.  `die` for a non-player actor removes it from the
map's entity set and `corpse()` spawns a random item factory's clone at
its tile (the random pick is the `pick` oracle argument). -/

inductive AIKind
  | hostile
  | confused (prev : AIKind) (turns_remaining : Nat)
  | constricted (prev : AIKind)
  | statue
  deriving Repr, DecidableEq

/-- `isinstance(self.ai, Constricted)`. -/
def AIKind.isConstricted : AIKind → Bool
  | .constricted _ => true
  | _ => false

structure ActorRec where
  aid : Nat
  x : Int
  y : Int
  char : Int
  base_char : Int
  ai : AIKind
  deriving Repr, DecidableEq

inductive WEntity
  | actor (a : ActorRec)
  | item (x y : Int) (pick : Nat)
  deriving Repr, DecidableEq

/-- `self.gamemap.entities.remove(self)`: drop the (first) entity with the
actor's identity. -/
def removeActor : List WEntity → Nat → List WEntity
  | [], _ => []
  | .actor a :: rest, i =>
    if a.aid == i then rest else .actor a :: removeActor rest i
  | e :: rest, i => e :: removeActor rest i

/-- In-place mutation of an actor object seen through the entity set:
replace the entity with the same identity. -/
def updateActor : List WEntity → ActorRec → List WEntity
  | [], _ => []
  | .actor a :: rest, b =>
    if a.aid == b.aid then .actor b :: rest
    else .actor a :: updateActor rest b
  | e :: rest, b => e :: updateActor rest b

/-- `Actor.corpse` (entity.py 191-192):
`random.choice(self.gamemap.item_factories).spawn(...)` at the actor's
tile; `pick` stands for the random factory choice. -/
def corpse (a : ActorRec) (pick : Nat) : WEntity := .item a.x a.y pick

/-- `Actor.die` for a non-player actor (entity.py 194-210): remove the
actor from the map's entity set and spawn a corpse pickup item.  Log
output omitted. -/
def Actor.die (entities : List WEntity) (a : ActorRec) (pick : Nat) :
    List WEntity :=
  removeActor entities a.aid ++ [corpse a pick]

structure DamageOutcome where
  entities : List WEntity
  died : Bool
  deriving Repr, DecidableEq

/-- `Actor.take_damage` (entity.py 212-225) for a non-player actor:
`new_c = int(self.char) - amount`; die when it goes negative, otherwise
write the digit back and repeat for `base_char`. -/
def Actor.take_damage (entities : List WEntity) (a : ActorRec)
    (amount : Int) (pick : Nat) : DamageOutcome :=
  let new_c := a.char - amount
  if new_c < 0 then { entities := Actor.die entities a pick, died := true }
  else
    let a1 : ActorRec := { a with char := new_c }
    let new_b := a1.base_char - amount
    if new_b < 0 then
      { entities := Actor.die entities a1 pick, died := true }
    else
      { entities := updateActor entities { a1 with base_char := new_b },
        died := false }

/-- `Actor.constrict` (entity.py 179-189): a no-op if the AI is already
`Constricted`; otherwise wrap the AI, decrement the health digit, and die
on underflow.  Message log and the `Color.statue` recolor omitted. -/
def Actor.constrict (entities : List WEntity) (a : ActorRec) (pick : Nat) :
    DamageOutcome :=
  if a.ai.isConstricted then { entities := entities, died := false }
  else
    let a1 : ActorRec := { a with ai := AIKind.constricted a.ai }
    let char_num := a1.char - 1
    if char_num < 0 then
      { entities := Actor.die entities a1 pick, died := true }
    else
      { entities := updateActor entities { a1 with char := char_num },
        died := false }

/-! ## Word mode (`src/basilisk/engine.py`, `check_word_mode`)

The dictionary file is the opaque oracle `is_valid_word`; the embedding
returns, next to the updated engine, the list of words submitted to the
oracle during the call. -/

structure WordEngine where
  playerChars : List Char
  word_mode : Bool
  history : List (String × String × Nat)
  turn_count : Nat

/-- `Engine.check_word_mode` (engine.py 137-144): an empty body chain
forces `word_mode` off without any oracle query; otherwise the chain's
glyphs are joined in body order and submitted once. -/
def check_word_mode (oracle : String → Bool) (e : WordEngine) :
    WordEngine × List String :=
  if e.playerChars.length < 1 then ({ e with word_mode := false }, [])
  else
    let p_word := String.mk e.playerChars
    let wm := oracle p_word
    let e1 : WordEngine := { e with word_mode := wm }
    let e2 : WordEngine :=
      if wm then
        { e1 with history := e1.history ++ [("form word", p_word, e1.turn_count)] }
      else e1
    (e2, [p_word])

/-! ## The action pipeline (`src/basilisk/actions.py`,
`src/basilisk/input_handlers.py`, `src/basilisk/engine.py`)

A game state carries the fields the claims observe.  An action's
`perform()` is embedded as a function returning the state after whatever
mutations ran before an exception escaped (Python does not roll back on
`raise`), together with that exception, if any.  That `MovementAction`
leaves the state untouched when it raises is therefore a theorem about
the guard running first, not something built into the embedding. -/

structure AEntity where
  eid : Nat
  x : Int
  y : Int
  blocks_movement : Bool
  deriving Repr, DecidableEq

structure GState where
  width : Int
  height : Int
  walkableTiles : Int → Int → Bool
  entities : List AEntity
  playerX : Int
  playerY : Int
  playerItems : List Segment
  player_alive : Bool
  turn_count : Nat
  messages : List String

inductive Exc
  | impossible (msg : String)
  | unorderedPickup
  deriving Repr, DecidableEq

/-- `GameMap.in_bounds` (game_map.py 145-147). -/
def GState.in_bounds (s : GState) (x y : Int) : Bool :=
  0 ≤ x && x < s.width && 0 ≤ y && y < s.height

/-- `GameMap.get_blocking_entity_at_location` (game_map.py 100-111). -/
def GState.get_blocking_entity_at_location (s : GState) (x y : Int) :
    Option AEntity :=
  s.entities.find? (fun e => e.blocks_movement && e.x == x && e.y == y)

/-- `GameMap.tile_is_walkable` (game_map.py 127-134) at the default
`phasing`/`entities` arguments. -/
def GState.tile_is_walkable (s : GState) (x y : Int) : Bool :=
  s.in_bounds x y && s.walkableTiles x y &&
    (s.get_blocking_entity_at_location x y).isNone

/-- `MovementAction.perform` (actions.py 145-168) for the player: the
walkability guard raises `Impossible` before any mutation; `rest`
abstracts the body from line 150 on (the move itself, auto-pickup,
constriction of adjacent enemies, the trapped check), which runs only
when the guard passes. -/
def MovementAction.perform (rest : GState → GState × Option Exc)
    (dx dy : Int) (s : GState) : GState × Option Exc :=
  if ¬ s.tile_is_walkable (s.playerX + dx) (s.playerY + dy) then
    (s, some (Exc.impossible "That way is blocked."))
  else rest s

/-- `MessageLog.add_message`. -/
def GState.addMessage (s : GState) (m : String) : GState :=
  { s with messages := s.messages ++ [m] }

/-- `EventHandler.handle_action` (input_handlers.py 172-198).  `advance`
abstracts lines 189-195 (the petrified auto-advance loop and the
`handle_enemy_turns` call), `updateFov` line 197; both run only when the
action performed without raising.  The bool is the returned
turn-will-advance flag (`UnorderedPickup` switches handlers: no turn).
On `Impossible` the message is logged and `False` returned at once, so
the enemy phase never runs and the turn counter never moves. -/
def handle_action (advance updateFov : GState → GState) :
    Option (GState → GState × Option Exc) → GState → GState × Bool
  | none, s => (s, false)
  | some perform, s =>
    match perform s with
    | (s1, some (Exc.impossible msg)) => (s1.addMessage msg, false)
    | (s1, some Exc.unorderedPickup) => (s1, false)
    | (s1, none) => (updateFov (advance s1), true)

/-- The per-enemy loop of `Engine.handle_enemy_turns` (engine.py
163-192).  Each element is one enemy's turn — the intent-clearing guards
of lines 165-183 folded together with `ai.perform()` — returning the
state it left behind and whether an `Impossible` escaped (`ai.perform`
raises nothing else here); the `except Impossible: pass` discards the
flag, and after each enemy the loop returns early if the player died
(lines 191-192). -/
def enemyTurnsLoop : List (GState → GState × Bool) → GState → GState
  | [], s => s
  | e :: rest, s =>
    let r := e s
    if r.1.player_alive then enemyTurnsLoop rest r.1 else r.1

/-- `Engine.handle_enemy_turns` (engine.py 149-203): intent invalidation
and enemy pre-turns (lines 150-160, `preTurns`), the per-enemy loop, then
— only when the player survived — enemy and player post-turns
(`postTurns`), the turn-counter increment, and the turn snapshot (file
output omitted). -/
def handle_enemy_turns (preTurns postTurns : GState → GState)
    (enemies : List (GState → GState × Bool)) (s : GState) : GState :=
  let s1 := preTurns s
  let s2 := enemyTurnsLoop enemies s1
  if s2.player_alive then
    let s3 := postTurns s2
    { s3 with turn_count := s3.turn_count + 1 }
  else s2

/-! ## Time reversal (`src/basilisk/engine.py`, `turn_back_time`)

`snapshots i` stands for the engine's game map deserialized from
`snapshot_i.sav`.  The map model keeps the fields the claim observes: the
monotonic `_next_id` counter, the `item_factories` identity table, the
restored player's chain and the map's item entities.  `basilisk/entity.py`
is not among the sources, so `Item.consume` is modelled from the spec; the
`identified` setter is the glyph-table setter of `src/entity.py`
(`Item.identifiedSet` above), which the spec describes identically. -/

structure RItem where
  id : Nat
  item_type : Char
  char : Char
  deriving Repr, DecidableEq

structure RGameMap where
  next_id : Nat
  item_factories : List ItemFactory
  playerItems : List RItem
  entities : List RItem
  deriving Repr, DecidableEq

structure REngine where
  game_map : RGameMap
  turn_count : Nat
  just_turned_back_time : Bool
  deriving Repr, DecidableEq

/-- The restore loop of `turn_back_time` (engine.py 109-118): for each
`i` in `reversed(range(turn, turn_count))`, load snapshot `i`, write the
*current* map's `_next_id` and `item_factories` into it, and make it the
current map.  `animation_beat` (rendering and sleep) omitted. -/
def restoreLoop (snapshots : Nat → RGameMap) :
    List Nat → RGameMap → RGameMap
  | [], current => current
  | i :: rest, current =>
    let gm := snapshots i
    let gm2 : RGameMap :=
      { gm with next_id := current.next_id,
                item_factories := current.item_factories }
    restoreLoop snapshots rest gm2

/-- Modelled from the spec: `Item.consume` of `basilisk/entity.py` is not
under src/.  Per §4.4, consuming removes the item from its owner (the
restored player's chain, and hence the entity set); the body-chain
repositioning `snake` call does not change membership.  The loop at
engine.py 122-127 consumes every restored copy carrying the turner's id. -/
def consumeById (gm : RGameMap) (tid : Nat) : RGameMap :=
  { gm with
    playerItems := gm.playerItems.filter (fun i => i.id != tid),
    entities := gm.entities.filter (fun i => i.id != tid) }

/-- `Engine.turn_back_time` (engine.py 102-130): clamp the target turn at
1, fold the restore loop over the stored snapshots newest-first, mark the
triggering item identified (`turner.identified = True`; the shared
factory list object was just carried into the restored map, so the write
lands in the current run's table), consume every restored copy of the
turner, and set `just_turned_back_time`.  The trailing `check_word_mode`
touches none of the fields observed here and is omitted with the
rendering calls. -/
def turn_back_time (snapshots : Nat → RGameMap) (e : REngine)
    (turns : Nat) (turner : RItem) : REngine :=
  let turn := max (e.turn_count - turns) 1
  let idxs := (List.range' turn (e.turn_count - turn)).reverse
  let gm1 := restoreLoop snapshots idxs e.game_map
  let fs2 := Item.identifiedSet gm1.item_factories
    (Item.mk turner.item_type turner.char) true
  let gm2 : RGameMap := { gm1 with item_factories := fs2 }
  let gm3 := consumeById gm2 turner.id
  { e with game_map := gm3, just_turned_back_time := true }

/-! ## Bounded placement loops (`src/basilisk/procgen.py`)

The three retry loops of dungeon generation — room/vault placement in
`generate_dungeon` (line 319) and the monster and item placement loops in
`place_entities` (lines 441 and 470) — all increment `attempts` as the
first statement of the body and carry `attempts < 1000` in the loop
condition.  The room construction performed per iteration
(`RectangularRoom`, vaultification, tile carving, lines 321-385) is
abstracted as `body`; the monster and item loop bodies are embedded, with
each iteration's `random.choice` / `random.randint` draws supplied by a
per-attempt oracle. -/

/-- The room/vault placement loop of `generate_dungeon`
(procgen.py 317-385): `while len(rooms) < max_rooms and attempts < 1000`,
starting with `attempts += 1`.  `body` is one placement attempt, which
may append rooms, vaults and tunnels. -/
def roomsLoop {R : Type} (max_rooms : Nat) (body : List R → List R)
    (attempts : Nat) (rooms : List R) : Nat × List R :=
  if h : rooms.length < max_rooms ∧ attempts < 1000 then
    roomsLoop max_rooms body (attempts + 1) (body rooms)
  else (attempts, rooms)
termination_by 1000 - attempts
decreasing_by omega

structure Monster where
  char : Int
  move_speed : Int
  deriving Repr, DecidableEq

/-- `calc_mp` (procgen.py 436-437): `int(monster.char) * monster.move_speed + 1`. -/
def calc_mp (m : Monster) : Int := m.char * m.move_speed + 1

/-- `min(calc_mp(p) for p in enemy_set)`; Python raises on an empty pool,
the default 0 is never used under the theorems' nonempty pools. -/
def minMp (es : List Monster) : Int := ((es.map calc_mp).min?).getD 0

structure MonsterChoice where
  pick : Nat
  x : Int
  y : Int
  deriving Repr, DecidableEq

structure MonsterState where
  monster_points : Int
  monsters : Nat
  occupied : List (Int × Int)
  spawned : List (Monster × Int × Int)
  deriving Repr, DecidableEq

/-- One iteration of the monster-placement loop body
(procgen.py 442-454): draw a monster; `continue` when its cost exceeds
the remaining points; draw a tile; spawn and pay only when no entity
already occupies it. -/
def monsterBody (enemy_set : List Monster) (c : MonsterChoice)
    (st : MonsterState) : MonsterState :=
  match enemy_set.get? (c.pick % enemy_set.length) with
  | none => st
  | some monster =>
    if calc_mp monster > st.monster_points then st
    else if st.occupied.any (fun p => p.1 == c.x && p.2 == c.y) then st
    else
      { st with
        occupied := st.occupied ++ [(c.x, c.y)],
        spawned := st.spawned ++ [(monster, c.x, c.y)],
        monster_points := st.monster_points - calc_mp monster,
        monsters := st.monsters + 1 }

/-- The monster-placement loop of `place_entities` (procgen.py 439-454):
`while monster_points > min(...) and attempts < 1000 and monsters <
maximum_monsters`, starting with `attempts += 1`. -/
def monstersLoop (enemy_set : List Monster) (maximum_monsters : Nat)
    (oracle : Nat → MonsterChoice) (attempts : Nat) (st : MonsterState) :
    Nat × MonsterState :=
  if h : st.monster_points > minMp enemy_set ∧ attempts < 1000 ∧
      st.monsters < maximum_monsters then
    monstersLoop enemy_set maximum_monsters oracle (attempts + 1)
      (monsterBody enemy_set (oracle attempts) st)
  else (attempts, st)
termination_by 1000 - attempts
decreasing_by omega

inductive Rarity
  | common
  | uncommon
  | rare
  deriving Repr, DecidableEq

/-- `{'c':1,'u':2,'r':3}[item.rarity] if item.rarity else 1`
(procgen.py 481). -/
def rarityCost : Option Rarity → Int
  | some .common => 1
  | some .uncommon => 2
  | some .rare => 3
  | none => 1

structure ItemChoice where
  pick : Nat
  x : Int
  y : Int
  deriving Repr, DecidableEq

structure ItemState where
  item_points : Int
  itemsAt : List (Int × Int)
  stairs : Int × Int
  placed : List (Option Rarity × Int × Int)
  deriving Repr, DecidableEq

/-- One iteration of the item-placement loop body (procgen.py 471-485):
draw a tile; `continue` on the down-stairs tile or when an item already
sits there; draw a factory; `continue` when its rarity cost exceeds the
remaining points, else spawn and pay. -/
def itemBody (factory_set : List (Option Rarity)) (c : ItemChoice)
    (st : ItemState) : ItemState :=
  if st.stairs == (c.x, c.y) then st
  else if st.itemsAt.any (fun p => p.1 == c.x && p.2 == c.y) then st
  else
    match factory_set.get? (c.pick % factory_set.length) with
    | none => st
    | some item =>
      if rarityCost item > st.item_points then st
      else
        { st with
          itemsAt := st.itemsAt ++ [(c.x, c.y)],
          placed := st.placed ++ [(item, c.x, c.y)],
          item_points := st.item_points - rarityCost item }

/-- The item-placement loop of `place_entities` (procgen.py 469-485):
`while item_points > 0 and attempts < 1000`, starting with
`attempts += 1`. -/
def itemsLoop (factory_set : List (Option Rarity))
    (oracle : Nat → ItemChoice) (attempts : Nat) (st : ItemState) :
    Nat × ItemState :=
  if h : st.item_points > 0 ∧ attempts < 1000 then
    itemsLoop factory_set oracle (attempts + 1)
      (itemBody factory_set (oracle attempts) st)
  else (attempts, st)
termination_by 1000 - attempts
decreasing_by omega

theorem snakeGo_map_sid (blocked : Pos → Bool) (fp : Pos) (its : List Segment) :
    (snakeGo blocked fp its).map Segment.sid = its.map Segment.sid := by
  induction its generalizing fp with
  | nil => rfl
  | cons it rest ih =>
    by_cases hb : it.blocks_movement
    · simp [snakeGo, hb, Segment.moveBy, ih]
    · by_cases hblk : blocked it.xy <;>
        simp [snakeGo, hb, hblk, Segment.solidify]

theorem Segment.moveBy_footprint (it : Segment) (fp : Pos) :
    (it.moveBy (fp.1 - it.x, fp.2 - it.y)).xy = fp := by
  cases fp with
  | mk a b => simp [Segment.moveBy, Segment.xy]

theorem snakeGo_xy_all_solid (blocked : Pos → Bool) (fp : Pos)
    (its : List Segment) (hne : its ≠ [])
    (hsolid : ∀ s ∈ its, s.blocks_movement) :
    (snakeGo blocked fp its).map Segment.xy =
      fp :: (its.map Segment.xy).dropLast := by
  induction its generalizing fp with
  | nil => exact absurd rfl hne
  | cons it rest ih =>
    have hit : it.blocks_movement := hsolid it (by simp)
    have hrest : ∀ s ∈ rest, s.blocks_movement := fun s hs => hsolid s (by simp [hs])
    rw [snakeGo, if_pos hit]
    cases rest with
    | nil =>
      simp [snakeGo, Segment.moveBy_footprint it fp]
    | cons b rs =>
      rw [List.map_cons, ih it.xy (by simp) hrest,
        Segment.moveBy_footprint it fp]
      simp [List.dropLast_cons_of_ne_nil]

theorem isChain_dropLast (h : Pos) (ps : List Pos) (hc : isChain h ps) :
    isChain h ps.dropLast := by
  induction ps generalizing h with
  | nil => trivial
  | cons p rest ih =>
    cases rest with
    | nil => trivial
    | cons q rs =>
      obtain ⟨hadj, hrest⟩ := hc
      exact ⟨hadj, ih p hrest⟩

theorem Player.move_items (blocked : Pos → Bool) (p : Player) (d : Pos) :
    (Player.move blocked p d).items = snakeGo blocked p.xy p.items := by
  simp [Player.move, Player.snake, Player.xy]

theorem Player.move_xy (blocked : Pos → Bool) (p : Player) (d : Pos) :
    (Player.move blocked p d).xy = (p.x + d.1, p.y + d.2) := by
  simp [Player.move, Player.snake, Player.xy]

/-- Claim C2: a player move via `Entity.move` (which invokes `snake`)
keeps the same inventory items in the same order; with the whole chain
solidified, every segment moves onto the tile vacated by the segment ahead
of it (the first onto the head's old tile), and the chain remains a
connected path of adjacent tiles rooted at the head. -/
theorem C2_body_chain_propagation (blocked : Pos → Bool) (p : Player)
    (d : Pos)
    (hsolid : ∀ s ∈ p.items, s.blocks_movement)
    (hchain : isChain p.xy (p.items.map Segment.xy))
    (hstep : adjacent (p.x + d.1, p.y + d.2) p.xy) :
    (Player.move blocked p d).items.map Segment.sid =
      p.items.map Segment.sid
    ∧ (p.items ≠ [] →
        (Player.move blocked p d).items.map Segment.xy =
          p.xy :: (p.items.map Segment.xy).dropLast)
    ∧ isChain (Player.move blocked p d).xy
        ((Player.move blocked p d).items.map Segment.xy) := by
  have hitems := Player.move_items blocked p d
  have hxy := Player.move_xy blocked p d
  refine ⟨?_, ?_, ?_⟩
  · rw [hitems]; exact snakeGo_map_sid blocked p.xy p.items
  · intro hne
    rw [hitems]
    exact snakeGo_xy_all_solid blocked p.xy p.items hne hsolid
  · rcases hni : p.items with _ | ⟨a, rest⟩
    · rw [hitems, hni]
      simp [snakeGo, isChain]
    · rw [hitems, hxy,
        snakeGo_xy_all_solid blocked p.xy p.items (by rw [hni]; simp) hsolid]
      exact ⟨hstep, isChain_dropLast p.xy _ hchain⟩

/-- Witness for C2 at a concrete two-segment chain taking a step north. -/
theorem C2_body_chain_propagation_witness :
    (∀ s ∈ (Player.mk 0 0 [Segment.mk 1 1 0 true, Segment.mk 2 2 0 true]).items,
        s.blocks_movement)
    ∧ isChain (Player.mk 0 0 [Segment.mk 1 1 0 true, Segment.mk 2 2 0 true]).xy
        ((Player.mk 0 0 [Segment.mk 1 1 0 true, Segment.mk 2 2 0 true]).items.map
          Segment.xy)
    ∧ (Player.move (fun _ => false)
          (Player.mk 0 0 [Segment.mk 1 1 0 true, Segment.mk 2 2 0 true])
          (0, 1)).items.map Segment.sid =
        (Player.mk 0 0 [Segment.mk 1 1 0 true, Segment.mk 2 2 0 true]).items.map
          Segment.sid := by
  refine ⟨by decide, by decide, ?_⟩
  exact (C2_body_chain_propagation (fun _ => false)
    (Player.mk 0 0 [Segment.mk 1 1 0 true, Segment.mk 2 2 0 true]) (0, 1)
    (by decide) (by decide) (by decide)).1

theorem findFactory_setFirstFactory (fs : List ItemFactory) (c : Char)
    (v : Bool) (hfac : ∃ f ∈ fs, f.char = c) :
    (findFactory (setFirstFactory fs c v) c).map ItemFactory.identifiedFlag =
      some v := by
  induction fs with
  | nil => simp at hfac
  | cons f rest ih =>
    by_cases h : f.char = c
    · simp [setFirstFactory, findFactory, h]
    · have hfac' : ∃ g ∈ rest, g.char = c := by
        rcases hfac with ⟨g, hg, hgc⟩
        rcases List.mem_cons.mp hg with rfl | hg'
        · exact absurd hgc h
        · exact ⟨g, hg', hgc⟩
      have := ih hfac'
      simpa [setFirstFactory, findFactory, h] using this

/-- Counterexample to claim C3 as stated: setting `identified = True` on a
vowel-type instance of glyph `e` is a no-op (the setter returns early for
`item_type == 'v'`), so a consonant-type item with the same glyph still
reads unidentified. -/
theorem C3_counterexample :
    Item.identifiedGet
      (Item.identifiedSet [ItemFactory.mk 'e' false] (Item.mk 'v' 'e') true)
      (Item.mk 'c' 'e') = some false := by decide

/-- Claim C3 (amended): for every non-vowel-type `Item` with glyph `k`
whose glyph has a factory entry, setting `identified` to `True` on that
instance makes the `identified` property read `True` for every existing
and future-spawned `Item` with glyph `k` (vowel-type items always read
identified), because identification lives in the shared per-glyph
item-factory table rather than per instance. -/
theorem C3_glyph_scoped_identification (fs : List ItemFactory)
    (setter reader : Item)
    (hsetter : setter.item_type ≠ 'v')
    (hchar : reader.char = setter.char)
    (hfac : ∃ f ∈ fs, f.char = setter.char) :
    Item.identifiedGet (Item.identifiedSet fs setter true) reader =
      some true := by
  rw [Item.identifiedSet, if_neg (by simpa using hsetter)]
  rw [Item.identifiedGet]
  by_cases hv : reader.item_type = 'v'
  · simp [hv]
  · rw [if_neg (by simpa using hv), hchar]
    exact findFactory_setFirstFactory fs setter.char true hfac

/-- Witness for C3 (amended) at a concrete one-factory table. -/
theorem C3_glyph_scoped_identification_witness :
    ((Item.mk 'c' 'k').item_type ≠ 'v')
    ∧ (∃ f ∈ [ItemFactory.mk 'k' false], f.char = (Item.mk 'c' 'k').char)
    ∧ Item.identifiedGet
        (Item.identifiedSet [ItemFactory.mk 'k' false] (Item.mk 'c' 'k') true)
        (Item.mk 'c' 'k') = some true := by
  refine ⟨by decide, ⟨ItemFactory.mk 'k' false, by simp⟩, ?_⟩
  exact C3_glyph_scoped_identification [ItemFactory.mk 'k' false]
    (Item.mk 'c' 'k') (Item.mk 'c' 'k') (by decide) rfl
    ⟨ItemFactory.mk 'k' false, by simp⟩

theorem strengthenFirst_map_kind (k : Nat) (strength : Int)
    (l : List StatusInstance) :
    (strengthenFirst k strength l).map StatusInstance.kind =
      l.map StatusInstance.kind := by
  induction l with
  | nil => rfl
  | cons s rest ih =>
    by_cases h : s.kind == k
    · simp [strengthenFirst, h, StatusInstance.strengthen]
    · simp [strengthenFirst, h, ih]

theorem strengthenFirst_filter (k : Nat) (strength : Int)
    (l : List StatusInstance) (x : StatusInstance) (xs : List StatusInstance)
    (h : l.filter (fun s => s.kind == k) = x :: xs) :
    (strengthenFirst k strength l).filter (fun s => s.kind == k) =
      x.strengthen strength :: xs := by
  induction l with
  | nil => simp at h
  | cons s rest ih =>
    by_cases hk : s.kind = k
    · rw [List.filter_cons_of_pos (by simpa using hk)] at h
      obtain ⟨rfl, rfl⟩ : s = x ∧ rest.filter (fun s => s.kind == k) = xs := by
        exact ⟨(List.cons.injEq _ _ _ _ ▸ h).1, (List.cons.injEq _ _ _ _ ▸ h).2⟩
      rw [strengthenFirst, if_pos (by simpa using hk)]
      rw [List.filter_cons_of_pos (by simpa [StatusInstance.strengthen] using hk)]
    · rw [List.filter_cons_of_neg (by simpa using hk)] at h
      rw [strengthenFirst, if_neg (by simpa using hk)]
      rw [List.filter_cons_of_neg (by simpa using hk)]
      exact ih h

theorem countP_kind_strengthenFirst (k : Nat) (strength : Int)
    (l : List StatusInstance) :
    (strengthenFirst k strength l).countP (fun s => s.kind == k) =
      l.countP (fun s => s.kind == k) := by
  have h1 : ∀ m : List StatusInstance,
      m.countP (fun s => s.kind == k) =
        (m.map StatusInstance.kind).countP (fun n => n == k) := by
    intro m; rw [List.countP_map]; rfl
  rw [h1, h1, strengthenFirst_map_kind]

/-- Claim C4: status application is idempotent by kind.  If the target has
at most one instance of kind `k`, it still has at most one after
`apply_status`; if it has exactly one with remaining duration `d`, the
second application leaves exactly one whose duration is `d` plus the
kind's strengthen amount; applying the same kind twice from a clean slate
yields one instance of duration `base + duration_mod + strengthen`, not
twice the base. -/
theorem C4_apply_status_idempotent (strength dmod : Int)
    (statuses : List StatusInstance) (k : Nat) (base d : Int)
    (hcount : statuses.countP (fun s => s.kind == k) ≤ 1) :
    ((apply_status strength dmod statuses k base).countP
        (fun s => s.kind == k) ≤ 1)
    ∧ (statuses.filter (fun s => s.kind == k) = [StatusInstance.mk k d] →
        (apply_status strength dmod statuses k base).filter
            (fun s => s.kind == k) = [StatusInstance.mk k (d + strength)])
    ∧ (statuses.filter (fun s => s.kind == k) = [] →
        (apply_status strength dmod
            (apply_status strength dmod statuses k base) k base).filter
            (fun s => s.kind == k) =
          [StatusInstance.mk k (base + dmod + strength)]) := by
  refine ⟨?_, ?_, ?_⟩
  · by_cases hemp : (statuses.filter (fun s => s.kind == k)).isEmpty
    · rw [apply_status, if_pos hemp]
      have hnil : statuses.filter (fun s => s.kind == k) = [] := by
        simpa [List.isEmpty_iff] using hemp
      have h0 : statuses.countP (fun s => s.kind == k) = 0 := by
        rw [List.countP_eq_length_filter, hnil]; rfl
      rw [List.countP_append, h0]
      simp [List.countP_cons, statusInit]
    · rw [apply_status, if_neg hemp]
      rw [countP_kind_strengthenFirst]
      exact hcount
  · intro hone
    have hemp : ¬ (statuses.filter (fun s => s.kind == k)).isEmpty := by
      rw [hone]; simp
    rw [apply_status, if_neg hemp]
    have := strengthenFirst_filter k strength statuses
      (StatusInstance.mk k d) [] hone
    simpa [StatusInstance.strengthen] using this
  · intro hnone
    have hemp : (statuses.filter (fun s => s.kind == k)).isEmpty := by
      rw [hnone]; rfl
    have h1 : apply_status strength dmod statuses k base =
        statuses ++ [statusInit k base dmod] := by
      rw [apply_status, if_pos hemp]
    rw [h1]
    have hfil1 : (statuses ++ [statusInit k base dmod]).filter
        (fun s => s.kind == k) = [StatusInstance.mk k (base + dmod)] := by
      rw [List.filter_append, hnone]
      simp [statusInit]
    have hemp2 : ¬ ((statuses ++ [statusInit k base dmod]).filter
        (fun s => s.kind == k)).isEmpty := by
      rw [hfil1]; simp
    rw [apply_status, if_neg hemp2]
    have := strengthenFirst_filter k strength
      (statuses ++ [statusInit k base dmod])
      (StatusInstance.mk k (base + dmod)) [] hfil1
    simpa [StatusInstance.strengthen] using this

/-- Witness for C4: strengthening an existing 7-duration instance of kind 3
with strengthen amount 10 yields duration 17, and a double application from
a clean slate yields one instance. -/
theorem C4_apply_status_idempotent_witness :
    (([StatusInstance.mk 3 7] : List StatusInstance).countP
        (fun s => s.kind == 3) ≤ 1)
    ∧ (apply_status 10 0 [StatusInstance.mk 3 7] 3 10).filter
        (fun s => s.kind == 3) = [StatusInstance.mk 3 17] := by
  refine ⟨by decide, ?_⟩
  have h := (C4_apply_status_idempotent 10 0 [StatusInstance.mk 3 7] 3 10 7
    (by decide)).2.1 (by decide)
  simpa using h

/-- Counterexample to claim C5 as stated: with base duration 10 and player
foresight (MIND) 11, a detrimental effect is created with duration `-1`,
so the initial duration is not clamped to be non-negative. -/
theorem C5_counterexample : (badStatusInit 0 10 11).duration < 0 := by decide

/-- Claim C5 (amended): a detrimental effect's initial duration is exactly
`base_duration - MIND` and a beneficial effect's is exactly
`base_duration + MIND`, with no clamping (the value may be zero or
negative at creation). -/
theorem C5_duration_mod (k : Nat) (base mind : Int) :
    (badStatusInit k base mind).duration = base - mind
    ∧ (goodStatusInit k base mind).duration = base + mind := by
  constructor
  · simp [badStatusInit, statusInit]; ring
  · simp [goodStatusInit, statusInit]

/-- Claim C7: for a non-player actor with health digit `d` (with
`d ≤ base_char`, as maintained by the code), `take_damage(a)` kills the
actor — removing it from the entity set and spawning a corpse pickup —
exactly when `d - a` is negative, and otherwise leaves it alive with
health digit `d - a`; in particular digit 3 taking damage 5 dies at once,
skipping negative health states. -/
theorem C7_take_damage (entities : List WEntity) (a : ActorRec)
    (amount : Int) (pick : Nat)
    (hbase : a.char ≤ a.base_char) :
    (a.char - amount < 0 →
      Actor.take_damage entities a amount pick =
        { entities := removeActor entities a.aid ++ [WEntity.item a.x a.y pick],
          died := true })
    ∧ (0 ≤ a.char - amount →
      Actor.take_damage entities a amount pick =
        { entities := updateActor entities
            { a with char := a.char - amount,
                     base_char := a.base_char - amount },
          died := false }) := by
  constructor
  · intro hneg
    rw [Actor.take_damage]
    simp only [if_pos hneg]
    rfl
  · intro hpos
    have h1 : ¬ a.char - amount < 0 := by omega
    have h2 : ¬ a.base_char - amount < 0 := by omega
    rw [Actor.take_damage]
    simp only [if_neg h1, if_neg h2]

/-- Witness for C7: the spec's own example, a lone actor at health digit 3
taking 5 damage, dies and leaves a corpse item. -/
theorem C7_take_damage_witness :
    ((ActorRec.mk 7 4 5 3 3 AIKind.hostile).char ≤
      (ActorRec.mk 7 4 5 3 3 AIKind.hostile).base_char)
    ∧ Actor.take_damage [WEntity.actor (ActorRec.mk 7 4 5 3 3 AIKind.hostile)]
        (ActorRec.mk 7 4 5 3 3 AIKind.hostile) 5 0 =
      { entities := [WEntity.item 4 5 0], died := true } := by
  refine ⟨by decide, ?_⟩
  have h := (C7_take_damage [WEntity.actor (ActorRec.mk 7 4 5 3 3 AIKind.hostile)]
    (ActorRec.mk 7 4 5 3 3 AIKind.hostile) 5 0 (by decide)).1 (by decide)
  simpa [removeActor] using h

/-- Claim C9: `Actor.constrict` is idempotent on already-constricted
actors (no state change at all); otherwise it wraps the current AI in
`Constricted` and decrements the health digit by 1, so an actor at health
digit 0 dies the moment it is constricted. -/
theorem C9_constrict (entities : List WEntity) (a : ActorRec) (pick : Nat) :
    (a.ai.isConstricted →
      Actor.constrict entities a pick = { entities := entities, died := false })
    ∧ (¬ a.ai.isConstricted → 0 < a.char →
      Actor.constrict entities a pick =
        { entities := updateActor entities
            { a with ai := AIKind.constricted a.ai, char := a.char - 1 },
          died := false })
    ∧ (¬ a.ai.isConstricted → a.char = 0 →
      Actor.constrict entities a pick =
        { entities := removeActor entities a.aid ++ [WEntity.item a.x a.y pick],
          died := true }) := by
  refine ⟨?_, ?_, ?_⟩
  · intro hc
    rw [Actor.constrict, if_pos hc]
  · intro hc hpos
    have h1 : ¬ a.char - 1 < 0 := by omega
    rw [Actor.constrict, if_neg (by simpa using hc)]
    simp only [if_neg h1]
  · intro hc hzero
    have h1 : a.char - 1 < 0 := by omega
    rw [Actor.constrict, if_neg (by simpa using hc)]
    simp only [if_pos h1]
    rfl

/-- Witness for C9: a hostile actor at health digit 0 dies the moment it
is constricted, leaving a corpse item on its tile. -/
theorem C9_constrict_witness :
    (¬ (AIKind.hostile).isConstricted)
    ∧ Actor.constrict [WEntity.actor (ActorRec.mk 2 1 1 0 0 AIKind.hostile)]
        (ActorRec.mk 2 1 1 0 0 AIKind.hostile) 0 =
      { entities := [WEntity.item 1 1 0], died := true } := by
  refine ⟨by decide, ?_⟩
  have h := (C9_constrict [WEntity.actor (ActorRec.mk 2 1 1 0 0 AIKind.hostile)]
    (ActorRec.mk 2 1 1 0 0 AIKind.hostile) 0).2.2 (by decide) rfl
  simpa [removeActor] using h

/-- Claim C10: `check_word_mode` with an empty body chain sets
`word_mode` to `False` without consulting the dictionary oracle; with at
least one held segment the oracle is queried exactly once, on the
concatenation of the chain's glyphs in body order. -/
theorem C10_check_word_mode (oracle : String → Bool) (e : WordEngine) :
    (e.playerChars = [] →
      (check_word_mode oracle e).1.word_mode = false
      ∧ (check_word_mode oracle e).2 = [])
    ∧ (e.playerChars ≠ [] →
      (check_word_mode oracle e).2 = [String.mk e.playerChars]
      ∧ (check_word_mode oracle e).1.word_mode =
          oracle (String.mk e.playerChars)) := by
  constructor
  · intro hnil
    rw [check_word_mode, if_pos (by simp [hnil])]
    simp
  · intro hne
    rw [check_word_mode,
      if_neg (by simp [Nat.lt_one_iff, List.length_eq_zero, hne])]
    by_cases hw : oracle (String.mk e.playerChars) <;> simp [hw]

/-- Witness for C10: the empty chain never queries the oracle even when
the oracle would accept the empty word, and a one-segment chain queries
exactly its glyph. -/
theorem C10_check_word_mode_witness :
    (check_word_mode (fun _ => true)
        (WordEngine.mk [] true [] 0)).1.word_mode = false
    ∧ (check_word_mode (fun _ => true)
        (WordEngine.mk [] true [] 0)).2 = []
    ∧ (check_word_mode (fun _ => true)
        (WordEngine.mk ['a'] false [] 0)).2 = [String.mk ['a']] := by
  have h1 := (C10_check_word_mode (fun _ => true)
    (WordEngine.mk [] true [] 0)).1 rfl
  have h2 := (C10_check_word_mode (fun _ => true)
    (WordEngine.mk ['a'] false [] 0)).2 (by simp)
  exact ⟨h1.1, h1.2, h2.1⟩

theorem enemyTurnsLoop_skips_failing
    (failing : GState → GState × Bool)
    (hfail : ∀ t, failing t = (t, true)) :
    ∀ (pre post : List (GState → GState × Bool)) (s : GState),
      s.player_alive →
      enemyTurnsLoop (pre ++ failing :: post) s =
        enemyTurnsLoop (pre ++ post) s := by
  intro pre
  induction pre with
  | nil =>
    intro post s halive
    rw [List.nil_append, List.nil_append, enemyTurnsLoop]
    rw [hfail s]
    simp [halive]
  | cons e rest ih =>
    intro post s _
    rw [List.cons_append, List.cons_append, enemyTurnsLoop, enemyTurnsLoop]
    by_cases ha : (e s).1.player_alive
    · simp only [ha, if_pos]
      exact ih post (e s).1 ha
    · simp only [ha]
      simp

/-- Claim C1: a player action raising `Impossible` mutates nothing and
does not consume the turn.  (a) `MovementAction.perform` into a
non-walkable destination raises before any mutation, whatever the rest of
its body would do; (b) `handle_action` on any action that raises
`Impossible` without mutating returns the state with only the failure
message logged and `False` — the enemy phase (`advance`) never runs, so
positions, inventory, entities and the turn counter are unchanged;
(c) in the enemy phase, an enemy whose action raises `Impossible` without
mutating is silently skipped: the loop behaves as if that enemy were
absent, and the remaining enemies' turns still run. -/
theorem C1_impossible_is_free (rest : GState → GState × Option Exc)
    (dx dy : Int) (s : GState) (advance updateFov : GState → GState)
    (perform : GState → GState × Option Exc) (msg : String)
    (failing : GState → GState × Bool)
    (pre post : List (GState → GState × Bool)) (s0 : GState)
    (hwalk : s.tile_is_walkable (s.playerX + dx) (s.playerY + dy) = false)
    (hperf : perform s = (s, some (Exc.impossible msg)))
    (hfail : ∀ t, failing t = (t, true))
    (halive : s0.player_alive) :
    MovementAction.perform rest dx dy s =
      (s, some (Exc.impossible "That way is blocked."))
    ∧ handle_action advance updateFov (some perform) s =
        (s.addMessage msg, false)
    ∧ (s.addMessage msg).turn_count = s.turn_count
    ∧ (s.addMessage msg).entities = s.entities
    ∧ (s.addMessage msg).playerX = s.playerX
    ∧ (s.addMessage msg).playerY = s.playerY
    ∧ (s.addMessage msg).playerItems = s.playerItems
    ∧ enemyTurnsLoop (pre ++ failing :: post) s0 =
        enemyTurnsLoop (pre ++ post) s0 := by
  refine ⟨?_, ?_, rfl, rfl, rfl, rfl, rfl, ?_⟩
  · rw [MovementAction.perform, if_pos (by simp [hwalk])]
  · rw [handle_action, hperf]
  · exact enemyTurnsLoop_skips_failing failing hfail pre post s0 halive

/-- Witness for C1 on a one-tile world whose only tile is unwalkable: the
move action fails without mutating, `handle_action` only logs, and a
purely-failing enemy between two others changes nothing. -/
theorem C1_impossible_is_free_witness :
    (GState.mk 1 1 (fun _ _ => false) [] 0 0 [] true 0 []).tile_is_walkable
        ((GState.mk 1 1 (fun _ _ => false) [] 0 0 [] true 0 []).playerX + 1)
        ((GState.mk 1 1 (fun _ _ => false) [] 0 0 [] true 0 []).playerY + 0)
      = false
    ∧ MovementAction.perform (fun t => (t, none)) 1 0
        (GState.mk 1 1 (fun _ _ => false) [] 0 0 [] true 0 []) =
      (GState.mk 1 1 (fun _ _ => false) [] 0 0 [] true 0 [],
        some (Exc.impossible "That way is blocked."))
    ∧ enemyTurnsLoop ([] ++ (fun t => (t, true)) :: [])
        (GState.mk 1 1 (fun _ _ => false) [] 0 0 [] true 0 []) =
      enemyTurnsLoop ([] ++ [])
        (GState.mk 1 1 (fun _ _ => false) [] 0 0 [] true 0 []) := by
  have h := C1_impossible_is_free (fun t => (t, none)) 1 0
    (GState.mk 1 1 (fun _ _ => false) [] 0 0 [] true 0 [])
    id id (fun t => (t, some (Exc.impossible "m"))) "m"
    (fun t => (t, true)) [] []
    (GState.mk 1 1 (fun _ _ => false) [] 0 0 [] true 0 [])
    rfl rfl (fun _ => rfl) rfl
  exact ⟨rfl, h.1, h.2.2.2.2.2.2.2⟩

theorem restoreLoop_carryover (snapshots : Nat → RGameMap)
    (idxs : List Nat) (cur : RGameMap) :
    (restoreLoop snapshots idxs cur).next_id = cur.next_id
    ∧ (restoreLoop snapshots idxs cur).item_factories =
        cur.item_factories := by
  induction idxs generalizing cur with
  | nil => exact ⟨rfl, rfl⟩
  | cons i rest ih => exact ih _

theorem restoreLoop_append_last (snapshots : Nat → RGameMap)
    (idxs : List Nat) (j : Nat) (cur : RGameMap) :
    (restoreLoop snapshots (idxs ++ [j]) cur).playerItems =
        (snapshots j).playerItems
    ∧ (restoreLoop snapshots (idxs ++ [j]) cur).entities =
        (snapshots j).entities := by
  induction idxs generalizing cur with
  | nil => exact ⟨rfl, rfl⟩
  | cons i rest ih => exact ih _

/-- Claim C6: a rewind of `K` turns triggered at turn `T` restores the
snapshot for turn `max (T - K) 1`, carries the current run's `_next_id`
counter and `item_factories` identity table into the restored map (so
identification learned after the rewind point survives), marks the
triggering item's glyph identified in that carried table, and removes
every restored copy of the triggering item from the player's chain. -/
theorem C6_turn_back_time (snapshots : Nat → RGameMap) (e : REngine)
    (turns : Nat) (turner : RItem)
    (hturns : 1 ≤ turns) (htc : 2 ≤ e.turn_count) :
    (turn_back_time snapshots e turns turner).game_map.playerItems =
        (snapshots (max (e.turn_count - turns) 1)).playerItems.filter
          (fun i => i.id != turner.id)
    ∧ (turn_back_time snapshots e turns turner).game_map.entities =
        (snapshots (max (e.turn_count - turns) 1)).entities.filter
          (fun i => i.id != turner.id)
    ∧ (turn_back_time snapshots e turns turner).game_map.next_id =
        e.game_map.next_id
    ∧ (turn_back_time snapshots e turns turner).game_map.item_factories =
        Item.identifiedSet e.game_map.item_factories
          (Item.mk turner.item_type turner.char) true
    ∧ ∀ i ∈ (turn_back_time snapshots e turns turner).game_map.playerItems,
        i.id ≠ turner.id := by
  have hle : max (e.turn_count - turns) 1 ≤ e.turn_count - 1 :=
    Nat.max_le.mpr ⟨by omega, by omega⟩
  have h1 : e.turn_count - max (e.turn_count - turns) 1 =
      (e.turn_count - max (e.turn_count - turns) 1 - 1) + 1 := by omega
  have hidxs : (List.range' (max (e.turn_count - turns) 1)
      (e.turn_count - max (e.turn_count - turns) 1)).reverse =
      (List.range' (max (e.turn_count - turns) 1 + 1)
        (e.turn_count - max (e.turn_count - turns) 1 - 1)).reverse ++
        [max (e.turn_count - turns) 1] := by
    rw [h1, List.range'_succ, List.reverse_cons]
    simp
  have hlast := restoreLoop_append_last snapshots
    ((List.range' (max (e.turn_count - turns) 1 + 1)
      (e.turn_count - max (e.turn_count - turns) 1 - 1)).reverse)
    (max (e.turn_count - turns) 1) e.game_map
  have hcarry := restoreLoop_carryover snapshots
    ((List.range' (max (e.turn_count - turns) 1)
      (e.turn_count - max (e.turn_count - turns) 1)).reverse) e.game_map
  have hpi : (turn_back_time snapshots e turns turner).game_map.playerItems =
      (snapshots (max (e.turn_count - turns) 1)).playerItems.filter
        (fun i => i.id != turner.id) := by
    show (restoreLoop snapshots ((List.range' (max (e.turn_count - turns) 1)
        (e.turn_count - max (e.turn_count - turns) 1)).reverse)
        e.game_map).playerItems.filter (fun i => i.id != turner.id) = _
    rw [hidxs, hlast.1]
  refine ⟨hpi, ?_, ?_, ?_, ?_⟩
  · show (restoreLoop snapshots ((List.range' (max (e.turn_count - turns) 1)
        (e.turn_count - max (e.turn_count - turns) 1)).reverse)
        e.game_map).entities.filter (fun i => i.id != turner.id) = _
    rw [hidxs, hlast.2]
  · show (restoreLoop snapshots ((List.range' (max (e.turn_count - turns) 1)
        (e.turn_count - max (e.turn_count - turns) 1)).reverse)
        e.game_map).next_id = _
    rw [hcarry.1]
  · show Item.identifiedSet (restoreLoop snapshots
        ((List.range' (max (e.turn_count - turns) 1)
          (e.turn_count - max (e.turn_count - turns) 1)).reverse)
        e.game_map).item_factories
        (Item.mk turner.item_type turner.char) true = _
    rw [hcarry.2]
  · intro i hi
    rw [hpi] at hi
    have h2 := (List.mem_filter.mp hi).2
    simpa using h2

/-- Witness for C6: rewinding 5 turns at turn 3 restores snapshot 1 with
the current counter and table, identifies the turner's glyph, and empties
its copy out of the restored chain. -/
theorem C6_turn_back_time_witness :
    (1 ≤ 5 ∧ 2 ≤ (REngine.mk
        (RGameMap.mk 42 [ItemFactory.mk 't' false] [] []) 3 false).turn_count)
    ∧ (turn_back_time
        (fun _ => RGameMap.mk 7 [ItemFactory.mk 't' false]
          [RItem.mk 9 'c' 't'] [RItem.mk 9 'c' 't'])
        (REngine.mk (RGameMap.mk 42 [ItemFactory.mk 't' false] [] []) 3 false)
        5 (RItem.mk 9 'c' 't')).game_map.next_id =
      (REngine.mk (RGameMap.mk 42 [ItemFactory.mk 't' false] [] [])
        3 false).game_map.next_id
    ∧ (∀ i ∈ (turn_back_time
        (fun _ => RGameMap.mk 7 [ItemFactory.mk 't' false]
          [RItem.mk 9 'c' 't'] [RItem.mk 9 'c' 't'])
        (REngine.mk (RGameMap.mk 42 [ItemFactory.mk 't' false] [] []) 3 false)
        5 (RItem.mk 9 'c' 't')).game_map.playerItems,
        i.id ≠ (RItem.mk 9 'c' 't').id) := by
  have h := C6_turn_back_time
    (fun _ => RGameMap.mk 7 [ItemFactory.mk 't' false]
      [RItem.mk 9 'c' 't'] [RItem.mk 9 'c' 't'])
    (REngine.mk (RGameMap.mk 42 [ItemFactory.mk 't' false] [] []) 3 false)
    5 (RItem.mk 9 'c' 't') (by decide) (by decide)
  exact ⟨⟨by decide, by decide⟩, h.2.2.1, h.2.2.2.2⟩

theorem roomsLoop_spec {R : Type} (max_rooms : Nat) (body : List R → List R)
    (attempts : Nat) (rooms : List R) (hb : attempts ≤ 1000) :
    (roomsLoop max_rooms body attempts rooms).1 ≤ 1000
    ∧ ¬ ((roomsLoop max_rooms body attempts rooms).2.length < max_rooms ∧
        (roomsLoop max_rooms body attempts rooms).1 < 1000) := by
  by_cases h : rooms.length < max_rooms ∧ attempts < 1000
  · rw [roomsLoop, dif_pos h]
    exact roomsLoop_spec max_rooms body (attempts + 1) (body rooms) (by omega)
  · rw [roomsLoop, dif_neg h]
    exact ⟨hb, h⟩
termination_by 1000 - attempts
decreasing_by omega

theorem monstersLoop_spec (enemy_set : List Monster)
    (maximum_monsters : Nat) (oracle : Nat → MonsterChoice)
    (attempts : Nat) (st : MonsterState) (hb : attempts ≤ 1000) :
    (monstersLoop enemy_set maximum_monsters oracle attempts st).1 ≤ 1000
    ∧ ¬ ((monstersLoop enemy_set maximum_monsters oracle attempts
          st).2.monster_points > minMp enemy_set ∧
        (monstersLoop enemy_set maximum_monsters oracle attempts st).1 < 1000 ∧
        (monstersLoop enemy_set maximum_monsters oracle attempts
          st).2.monsters < maximum_monsters) := by
  by_cases h : st.monster_points > minMp enemy_set ∧ attempts < 1000 ∧
      st.monsters < maximum_monsters
  · rw [monstersLoop, dif_pos h]
    exact monstersLoop_spec enemy_set maximum_monsters oracle (attempts + 1)
      (monsterBody enemy_set (oracle attempts) st) (by omega)
  · rw [monstersLoop, dif_neg h]
    exact ⟨hb, h⟩
termination_by 1000 - attempts
decreasing_by omega

theorem itemsLoop_spec (factory_set : List (Option Rarity))
    (oracle : Nat → ItemChoice) (attempts : Nat) (st : ItemState)
    (hb : attempts ≤ 1000) :
    (itemsLoop factory_set oracle attempts st).1 ≤ 1000
    ∧ ¬ ((itemsLoop factory_set oracle attempts st).2.item_points > 0 ∧
        (itemsLoop factory_set oracle attempts st).1 < 1000) := by
  by_cases h : st.item_points > 0 ∧ attempts < 1000
  · rw [itemsLoop, dif_pos h]
    exact itemsLoop_spec factory_set oracle (attempts + 1)
      (itemBody factory_set (oracle attempts) st) (by omega)
  · rw [itemsLoop, dif_neg h]
    exact ⟨hb, h⟩
termination_by 1000 - attempts
decreasing_by omega

/-- Claim C8: dungeon generation terminates for every input.  Each of the
three placement loops — rooms/vaults in `generate_dungeon`, monsters and
items in `place_entities` — returns after at most 1000 attempts
(the functions are total by the decreasing `1000 - attempts` measure),
and exits only because its target is met or the attempt cap is hit:
the room loop ends with the room count reached or `attempts = 1000`; the
monster loop with the point budget exhausted down to the cheapest
monster, the per-room monster cap reached, or `attempts = 1000`; the item
loop with the item budget exhausted or `attempts = 1000`. -/
theorem C8_generation_bounded {R : Type} (max_rooms : Nat)
    (body : List R → List R) (rooms : List R)
    (enemy_set : List Monster) (maximum_monsters : Nat)
    (om : Nat → MonsterChoice) (mst : MonsterState)
    (factory_set : List (Option Rarity)) (oi : Nat → ItemChoice)
    (ist : ItemState) :
    ((roomsLoop max_rooms body 0 rooms).1 ≤ 1000
      ∧ (max_rooms ≤ (roomsLoop max_rooms body 0 rooms).2.length
          ∨ (roomsLoop max_rooms body 0 rooms).1 = 1000))
    ∧ ((monstersLoop enemy_set maximum_monsters om 0 mst).1 ≤ 1000
      ∧ ((monstersLoop enemy_set maximum_monsters om 0
            mst).2.monster_points ≤ minMp enemy_set
          ∨ (monstersLoop enemy_set maximum_monsters om 0 mst).1 = 1000
          ∨ maximum_monsters ≤
              (monstersLoop enemy_set maximum_monsters om 0 mst).2.monsters))
    ∧ ((itemsLoop factory_set oi 0 ist).1 ≤ 1000
      ∧ ((itemsLoop factory_set oi 0 ist).2.item_points ≤ 0
          ∨ (itemsLoop factory_set oi 0 ist).1 = 1000)) := by
  refine ⟨?_, ?_, ?_⟩
  · have h := roomsLoop_spec max_rooms body 0 rooms (by omega)
    have h1 := h.1
    have h2 := h.2
    exact ⟨h1, by omega⟩
  · have h := monstersLoop_spec enemy_set maximum_monsters om 0 mst (by omega)
    have h1 := h.1
    have h2 := h.2
    exact ⟨h1, by omega⟩
  · have h := itemsLoop_spec factory_set oi 0 ist (by omega)
    have h1 := h.1
    have h2 := h.2
    exact ⟨h1, by omega⟩

end Basilisk
